import Mathlib

/-!
# Verification of `fqstat` (FASTQ threshold statistics tool)

Shallow embedding of `src/fqstat/fqstat.py`. The program searches a
directory for FASTQ files, parses each file's records, counts how many
records have a sequence longer than a threshold, and writes a JSON report
plus an optional console table.

The embedding models:
* the FASTQ record parser (the source delegates to the external library
  `Bio.SeqIO`; the structural parsing rules are modelled from the spec,
  §4.1: fixed 4-line blocks, `@` header, `+` separator, equal
  sequence/quality lengths, trailing blank lines ignored);
* the per-file counting loop of `fqstat` (lines 68–76 of the source);
* the per-file result dictionary entry (lines 78–87), including the
  unguarded division `total_targets/total_records`;
* the whole `fqstat` function as a pure function from the matched file
  list to either an error (aborted run: nothing persisted) or an output
  record holding the JSON side effect and the optional table.

Python's `round(x, 4)` is modelled on rationals as round-half-to-even at
four decimal digits.
-/

namespace Fqstat

/-- One FASTQ entry: identifier, nucleotide sequence, quality string. -/
structure SequenceRecord where
  id : String
  seq : String
  qual : String
  deriving Repr, DecidableEq

/-- A line is blank when it contains only whitespace (`l.strip()` empty). -/
def isBlank (l : String) : Bool :=
  l.data.all Char.isWhitespace

/-- The line starts with the marker character (`l.startswith(c)`). -/
def startsWithChar (l : String) (c : Char) : Bool :=
  l.data.head? = some c

/-- Whitespace stripped from both ends of a character list. -/
def stripChars (cs : List Char) : List Char :=
  ((cs.dropWhile Char.isWhitespace).reverse.dropWhile Char.isWhitespace).reverse

/-- Modelled from the spec: the source parses FASTQ via the external
library `Bio.SeqIO` (not part of this repository); spec §4.1 gives the
structural contract. Records are fixed 4-line blocks: a header line
starting with `@`, a sequence line, a separator line starting with `+`,
and a quality line of the same length as the sequence line. A truncated
block, a missing marker, or a length mismatch is a structural error;
trailing blank lines at end of stream are ignored. -/
def parseFastq : List String → Except String (List SequenceRecord)
  | [] => Except.ok []
  | h :: s :: p :: q :: rest =>
      if (h :: s :: p :: q :: rest).all isBlank then
        Except.ok []
      else if ¬ startsWithChar h '@' then
        Except.error "MalformedRecordError: header line does not start with @"
      else if ¬ startsWithChar p '+' then
        Except.error "MalformedRecordError: separator line does not start with +"
      else if s.length ≠ q.length then
        Except.error "MalformedRecordError: sequence and quality lengths differ"
      else
        match parseFastq rest with
        | Except.ok rs =>
            Except.ok
              ({ id := String.mk (stripChars (h.data.drop 1)), seq := s,
                 qual := q } :: rs)
        | Except.error e => Except.error e
  | lines =>
      if lines.all isBlank then Except.ok []
      else Except.error "MalformedRecordError: stream ends mid-block"

/-- The counting loop of `fqstat` (source lines 73–76): state is the pair
`(total_records, total_targets)`; each record increments `total_records`,
and increments `total_targets` exactly when the sequence length is
strictly greater than `num_nucleotides`. The threshold is a Python `int`,
so it is an `Int` here (it may be negative; the code never validates or
clamps it). -/
def aggregateLoop (num_nucleotides : Int) :
    List SequenceRecord → Nat × Nat → Nat × Nat
  | [], acc => acc
  | r :: rs, acc =>
      aggregateLoop num_nucleotides rs
        (acc.1 + 1,
         if (r.seq.length : Int) > num_nucleotides then acc.2 + 1 else acc.2)

/-- Aggregation over one file's records, starting from `(0, 0)` as in the
source (lines 68–69). Returns `(total_records, total_targets)`. -/
def aggregate (records : List SequenceRecord) (num_nucleotides : Int) :
    Nat × Nat :=
  aggregateLoop num_nucleotides records (0, 0)

/-- Python's `round(x, 4)` on the exact rational value: round half to even
at four decimal digits. `x * 10000 = (x.num * 10000) / x.den` is split by
floor division into quotient `q` and remainder `r` (`0 ≤ r < x.den`); the
fractional part `r / x.den` is compared with `1/2` by comparing `2 * r`
with `x.den`, and a tie goes to the even quotient. -/
def round4 (x : ℚ) : ℚ :=
  let n : ℤ := x.num * 10000
  let d : ℤ := (x.den : ℤ)
  let q : ℤ := Int.fdiv n d
  let r : ℤ := Int.fmod n d
  let rounded : ℤ :=
    if 2 * r < d then q
    else if 2 * r > d then q + 1
    else if q % 2 = 0 then q else q + 1
  mkRat rounded 10000

/-- Errors that abort a run of `fqstat`. `exit` models `sys.exit(msg)`
(Python prints the message to standard error and exits with status 1);
`malformed` models a structural FASTQ parse error propagating out of the
record loop; `zeroDivision` models the `ZeroDivisionError` raised by the
unguarded `total_targets/total_records`. -/
inductive FqError where
  | exit (message : String) (status : Nat)
  | malformed (message : String)
  | zeroDivision
  deriving Repr, DecidableEq

/-- The fraction computation of source line 86:
`round(total_targets/total_records, 4)`. The division is not guarded, so
`total_records = 0` raises `ZeroDivisionError`. -/
def computePercent (total_targets total_records : Nat) : Except FqError ℚ :=
  if total_records = 0 then Except.error FqError.zeroDivision
  else Except.ok (round4 (mkRat (total_targets : Int) total_records))

/-- The per-file dictionary value stored at `data[key]` (source lines
82–87): exactly the four fields `path`, `total_targets`, `total_records`,
`percent`. -/
structure FileResult where
  path : String
  total_targets : Nat
  total_records : Nat
  percent : ℚ
  deriving Repr, DecidableEq

/-- A matched file, as the loop body sees it: its path string, its stem
(`path.stem`, the filename without the final extension), and its lines. -/
structure FastqFile where
  path : String
  stem : String
  lines : List String
  deriving Repr, DecidableEq

/-- The loop body for one matched path (source lines 66–87): parse the
file's records, run the counting loop, compute the rounded fraction, and
produce the dictionary entry keyed by the path's stem. -/
def processFile (num_nucleotides : Int) (f : FastqFile) :
    Except FqError (String × FileResult) :=
  match parseFastq f.lines with
  | Except.error e => Except.error (FqError.malformed e)
  | Except.ok records =>
      let tr := (aggregate records num_nucleotides).1
      let tt := (aggregate records num_nucleotides).2
      match computePercent tt tr with
      | Except.error e => Except.error e
      | Except.ok pct =>
          Except.ok (f.stem,
            { path := f.path, total_targets := tt, total_records := tr,
              percent := pct })

/-- Python `dict` assignment `data[key] = value`: if the key is present
its value is replaced in place (the key keeps its original position);
otherwise the pair is appended. -/
def upsert (m : List (String × FileResult)) (k : String) (v : FileResult) :
    List (String × FileResult) :=
  if m.any (fun p => p.1 = k) then
    m.map (fun p => if p.1 = k then (k, v) else p)
  else m ++ [(k, v)]

/-- The `for path in matched_paths` loop (source lines 66–87), threading
the accumulating dictionary; the first error aborts the whole loop (the
exception propagates, so nothing after the loop runs). -/
def scanFiles (num_nucleotides : Int) (data : List (String × FileResult)) :
    List FastqFile → Except FqError (List (String × FileResult))
  | [] => Except.ok data
  | f :: rest =>
      match processFile num_nucleotides f with
      | Except.error e => Except.error e
      | Except.ok (k, v) => scanFiles num_nucleotides (upsert data k v) rest

/-- A rendered table row (source lines 105–111): the stem, the two counts,
and the Percent cell, modelled as its numeric value together with its
suffix (the code formats `value['percent']*100` followed by `%`). -/
structure TableRow where
  file : String
  total_targets : Nat
  total_records : Nat
  percentValue : ℚ
  percentSuffix : String
  deriving Repr, DecidableEq

/-- The console table (source lines 94–113): the header row and one data
row per dictionary entry, in the dictionary's iteration (insertion)
order. -/
structure Table where
  fieldNames : List String
  rows : List TableRow
  deriving Repr, DecidableEq

/-- Multiplication of a rational by 100, written on the numerator so that
it evaluates by kernel reduction; `ratTimes100_eq` below shows it agrees
with `x * 100`. -/
def ratTimes100 (x : ℚ) : ℚ :=
  mkRat (x.num * 100) x.den

/-- One table row from one dictionary entry (source lines 106–111): the
Percent cell is `value[percent] * 100` followed by `%`. -/
def renderRow (e : String × FileResult) : TableRow :=
  { file := e.1, total_targets := e.2.total_targets,
    total_records := e.2.total_records,
    percentValue := ratTimes100 e.2.percent, percentSuffix := "%" }

/-- The table built from the dictionary (source lines 94–113). -/
def renderTable (num_nucleotides : Int)
    (data : List (String × FileResult)) : Table :=
  { fieldNames :=
      ["File", "Total Targets", "Total Records",
       s!"Percent (> {num_nucleotides} Nucleotides)"],
    rows := data.map renderRow }

/-- The observable outcome of a successful run: the name of the JSON file
written to the current working directory, the dictionary serialized into
it, and the table printed to standard output (`none` when `--quiet`). -/
structure FqstatOutput where
  jsonFile : String
  jsonData : List (String × FileResult)
  table : Option Table
  deriving Repr, DecidableEq

/-- The whole `fqstat` function (source lines 46–113), as a pure function
of the matched path list (the result of `search`), the threshold, and the
`quiet` flag. An empty match list exits immediately with the message
`No files found.` and status 1; otherwise the files are processed in
order, the JSON file is written (unconditionally), and the table is
printed unless `quiet`. Any error aborts the run before the JSON write. -/
def fqstat (matched_paths : List FastqFile) (num_nucleotides : Int)
    (quiet : Bool) : Except FqError FqstatOutput :=
  if matched_paths.isEmpty then
    Except.error (FqError.exit "No files found." 1)
  else
    match scanFiles num_nucleotides [] matched_paths with
    | Except.error e => Except.error e
    | Except.ok data =>
        Except.ok
          { jsonFile := s!"scan-{num_nucleotides}_nucleotides.json",
            jsonData := data,
            table :=
              if quiet then none else some (renderTable num_nucleotides data) }

/-- Scenario A's input (spec §8): a file `sample.fastq` with two records,
of sequence lengths 25 and 35. -/
def sampleFastq : FastqFile :=
  { path := "sample.fastq", stem := "sample",
    lines :=
      ["@r1", "ACGTACGTACGTACGTACGTACGTA", "+",
       "IIIIIIIIIIIIIIIIIIIIIIIII",
       "@r2", "ACGTACGTACGTACGTACGTACGTACGTACGTACG", "+",
       "IIIIIIIIIIIIIIIIIIIIIIIIIIIIIIIIIII"] }

/-- Scenario C's input (spec §8): a matched file with zero records. -/
def emptyFastq : FastqFile :=
  { path := "empty.fastq", stem := "empty", lines := [] }

/-- Scenario D's input (spec §8): a structurally malformed file whose
third line does not start with the `+` separator marker. -/
def badFastq : FastqFile :=
  { path := "bad.fastq", stem := "bad",
    lines := ["@r1", "ACGT", "IIII", "IIII"] }

/-- A well-formed one-record file under directory `a`, stem `s`. -/
def fileA : FastqFile :=
  { path := "a/s.fastq", stem := "s", lines := ["@r1", "ACGT", "+", "IIII"] }

/-- A well-formed one-record file under directory `b`, with the same stem
`s` as `fileA` but different contents. -/
def fileB : FastqFile :=
  { path := "b/s.fastq", stem := "s", lines := ["@r2", "AC", "+", "II"] }

/-- The `FileResult` the program computes for `fileA` at threshold 3. -/
def resultA : FileResult :=
  { path := "a/s.fastq", total_targets := 1, total_records := 1, percent := 1 }

/-- The `FileResult` the program computes for `fileB` at threshold 3. -/
def resultB : FileResult :=
  { path := "b/s.fastq", total_targets := 0, total_records := 1, percent := 0 }

/-- The dictionary the program builds for `sampleFastq` at threshold
30. -/
def sampleData : List (String × FileResult) :=
  [("sample",
    { path := "sample.fastq", total_targets := 1, total_records := 2,
      percent := mkRat 1 2 })]

/-- The full output of a non-quiet run on `sampleFastq` at threshold
30. -/
def sampleOutput : FqstatOutput :=
  { jsonFile := "scan-30_nucleotides.json", jsonData := sampleData,
    table := some (renderTable 30 sampleData) }

deriving instance DecidableEq for Except

/-! ## General lemmas about the embedded operations -/

/-- Unfolding the counting loop: starting from any accumulator, it adds
the record count to the first component and the number of records whose
sequence length strictly exceeds the threshold to the second. -/
theorem aggregateLoop_eq (num_nucleotides : Int) :
    ∀ (rs : List SequenceRecord) (acc : Nat × Nat),
      aggregateLoop num_nucleotides rs acc =
        (acc.1 + rs.length,
         acc.2 + rs.countP
           (fun r => decide ((r.seq.length : Int) > num_nucleotides)))
  | [], acc => by simp [aggregateLoop]
  | r :: rs, acc => by
      rw [aggregateLoop, aggregateLoop_eq num_nucleotides rs]
      by_cases h : (r.seq.length : Int) > num_nucleotides <;>
        simp [h, List.countP_cons, Prod.mk.injEq] <;> omega

/-- `total_records` is the number of records consumed. -/
theorem aggregate_total_records (records : List SequenceRecord)
    (num_nucleotides : Int) :
    (aggregate records num_nucleotides).1 = records.length := by
  simp [aggregate, aggregateLoop_eq]

/-- `total_targets` counts exactly the records with sequence length
strictly above the threshold. -/
theorem aggregate_total_targets (records : List SequenceRecord)
    (num_nucleotides : Int) :
    (aggregate records num_nucleotides).2 =
      records.countP
        (fun r => decide ((r.seq.length : Int) > num_nucleotides)) := by
  simp [aggregate, aggregateLoop_eq]

/-- A successful `processFile` keys the entry by the file's stem, stores
the file's path, has a nonzero record count, counts at most as many
targets as records, and stores the rounded target fraction. -/
theorem processFile_ok_inv (num_nucleotides : Int) (f : FastqFile)
    (k : String) (v : FileResult)
    (h : processFile num_nucleotides f = Except.ok (k, v)) :
    k = f.stem ∧ v.path = f.path ∧ v.total_records ≠ 0 ∧
      v.total_targets ≤ v.total_records ∧
      v.percent = round4 (mkRat (v.total_targets : Int) v.total_records) := by
  unfold processFile at h
  cases hp : parseFastq f.lines with
  | error e => rw [hp] at h; simp at h
  | ok records =>
      rw [hp] at h
      by_cases hz : (aggregate records num_nucleotides).1 = 0
      · simp [computePercent, hz] at h
      · simp only [computePercent, hz, if_neg, if_false] at h
        rw [Except.ok.injEq, Prod.mk.injEq] at h
        obtain ⟨hk, hv⟩ := h
        subst hv
        refine ⟨hk.symm, rfl, hz, ?_, rfl⟩
        show (aggregate records num_nucleotides).2 ≤
          (aggregate records num_nucleotides).1
        rw [aggregate_total_records, aggregate_total_targets]
        exact List.countP_le_length _

/-- Every element of `upsert m k v` is an element of `m` or is the new
pair `(k, v)`. -/
theorem mem_upsert (m : List (String × FileResult)) (k : String)
    (v : FileResult) (e : String × FileResult)
    (he : e ∈ upsert m k v) : e ∈ m ∨ e = (k, v) := by
  unfold upsert at he
  by_cases hk : m.any (fun p => p.1 = k)
  · rw [if_pos hk] at he
    obtain ⟨p, hp, hpe⟩ := List.mem_map.mp he
    by_cases h2 : p.1 = k
    · rw [if_pos h2] at hpe
      exact Or.inr hpe.symm
    · rw [if_neg h2] at hpe
      exact Or.inl (hpe ▸ hp)
  · rw [if_neg hk] at he
    rcases List.mem_append.mp he with h | h
    · exact Or.inl h
    · exact Or.inr (by simpa using h)

/-- If some file in the scan list fails to parse, the scan loop aborts
with an error, whatever the accumulated dictionary is. -/
theorem scanFiles_error_of_malformed (num_nucleotides : Int) :
    ∀ (files : List FastqFile) (data : List (String × FileResult))
      (f : FastqFile), f ∈ files →
      (∃ e, parseFastq f.lines = Except.error e) →
      ∃ err, scanFiles num_nucleotides data files = Except.error err
  | [], _, f, hf, _ => absurd hf (List.not_mem_nil f)
  | g :: rest, data, f, hf, he => by
      cases hpg : processFile num_nucleotides g with
      | error e => exact ⟨e, by simp [scanFiles, hpg]⟩
      | ok kv =>
          rcases List.mem_cons.mp hf with rfl | hmem
          · obtain ⟨e, hpe⟩ := he
            unfold processFile at hpg
            rw [hpe] at hpg
            simp at hpg
          · obtain ⟨err, h⟩ :=
              scanFiles_error_of_malformed num_nucleotides rest
                (upsert data kv.1 kv.2) f hmem he
            exact ⟨err, by
              cases kv with
              | mk k v => simp [scanFiles, hpg]; exact h⟩

/-- Every entry of a successful scan's dictionary either was already in
the initial dictionary or is a well-formed entry for one of the scanned
files. -/
theorem scanFiles_ok_inv (num_nucleotides : Int) :
    ∀ (files : List FastqFile) (data res : List (String × FileResult)),
      scanFiles num_nucleotides data files = Except.ok res →
      ∀ e ∈ res, e ∈ data ∨
        ∃ f ∈ files, e.1 = f.stem ∧ e.2.path = f.path ∧
          e.2.total_records ≠ 0 ∧
          e.2.total_targets ≤ e.2.total_records ∧
          e.2.percent =
            round4 (mkRat (e.2.total_targets : Int) e.2.total_records)
  | [], data, res, h, e, hme => by
      refine Or.inl ?_
      obtain rfl : data = res := by simpa [scanFiles] using h
      exact hme
  | g :: rest, data, res, h, e, hme => by
      cases hpg : processFile num_nucleotides g with
      | error err => rw [scanFiles, hpg] at h; simp at h
      | ok kv =>
          cases kv with
          | mk k v =>
              rw [scanFiles, hpg] at h
              rcases scanFiles_ok_inv num_nucleotides rest
                  (upsert data k v) res h e hme with hin | ⟨f, hf, hform⟩
              · rcases mem_upsert data k v e hin with hdata | rfl
                · exact Or.inl hdata
                · obtain ⟨hk, hpath, hnz, hle, hpct⟩ :=
                    processFile_ok_inv num_nucleotides g k v hpg
                  exact Or.inr ⟨g, List.mem_cons_self g rest,
                    hk, hpath, hnz, hle, hpct⟩
              · exact Or.inr ⟨f, List.mem_cons_of_mem g hf, hform⟩

/-- Inversion of a successful run: the matched list was nonempty, the
scan succeeded with the output's dictionary, the JSON file name embeds
the threshold, and the table is present exactly when not quiet. -/
theorem fqstat_ok_inv (matched_paths : List FastqFile)
    (num_nucleotides : Int) (quiet : Bool) (out : FqstatOutput)
    (h : fqstat matched_paths num_nucleotides quiet = Except.ok out) :
    matched_paths.isEmpty = false ∧
      scanFiles num_nucleotides [] matched_paths = Except.ok out.jsonData ∧
      out.jsonFile = s!"scan-{num_nucleotides}_nucleotides.json" ∧
      out.table = (if quiet then none
        else some (renderTable num_nucleotides out.jsonData)) := by
  unfold fqstat at h
  by_cases he : matched_paths.isEmpty
  · rw [if_pos he] at h; simp at h
  · rw [if_neg he] at h
    cases hs : scanFiles num_nucleotides [] matched_paths with
    | error err => rw [hs] at h; simp at h
    | ok data =>
        rw [hs] at h
        obtain rfl : _ = out := by simpa using h
        simp [he, hs]

/-- Assembling a successful run from a successful scan, for any value of
the `quiet` flag. -/
theorem fqstat_of_scan_ok (matched_paths : List FastqFile)
    (num_nucleotides : Int) (quiet : Bool)
    (data : List (String × FileResult))
    (hne : matched_paths.isEmpty = false)
    (hs : scanFiles num_nucleotides [] matched_paths = Except.ok data) :
    fqstat matched_paths num_nucleotides quiet =
      Except.ok
        { jsonFile := s!"scan-{num_nucleotides}_nucleotides.json",
          jsonData := data,
          table := if quiet then none
            else some (renderTable num_nucleotides data) } := by
  simp [fqstat, hne, hs]

/-- `ratTimes100` is multiplication by 100. -/
theorem ratTimes100_eq (x : ℚ) : ratTimes100 x = x * 100 := by
  unfold ratTimes100
  rw [Rat.mkRat_eq_divInt, Rat.divInt_eq_div]
  push_cast
  rw [mul_comm (x.num : ℚ) 100, mul_div_assoc, Rat.num_div_den, mul_comm]

/-! ## Claim theorems -/

/-- C1: the claim says the division by zero on the fraction computation
is explicitly guarded. It is not: for a matched file with zero records
(`emptyFastq`), the unguarded `total_targets/total_records` raises
`ZeroDivisionError` and the run aborts, for every threshold and both
values of `quiet`. This theorem evaluates the code at the failing
input. -/
theorem fqstat_zero_records_zero_division (num_nucleotides : Int)
    (quiet : Bool) :
    fqstat [emptyFastq] num_nucleotides quiet =
      Except.error FqError.zeroDivision := rfl

/-- C2: the aggregation counts a record as a target exactly when its
sequence length is strictly greater than the threshold; in particular a
record whose sequence length equals the threshold is not counted. -/
theorem aggregate_counts_strictly_exceeding (records : List SequenceRecord)
    (num_nucleotides : Int) :
    (aggregate records num_nucleotides).2 =
      records.countP
        (fun r => decide ((r.seq.length : Int) > num_nucleotides)) :=
  aggregate_total_targets records num_nucleotides

/-- C3: `total_exceeding ≤ total_records = |R|`, and `total_exceeding`
is monotonically non-increasing as the threshold increases. -/
theorem aggregate_bounds_and_antitone (records : List SequenceRecord)
    (t u : Int) (htu : t ≤ u) :
    (aggregate records t).2 ≤ (aggregate records t).1 ∧
      (aggregate records t).1 = records.length ∧
      (aggregate records u).2 ≤ (aggregate records t).2 := by
  refine ⟨?_, aggregate_total_records records t, ?_⟩
  · rw [aggregate_total_records, aggregate_total_targets]
    exact List.countP_le_length _
  · rw [aggregate_total_targets, aggregate_total_targets]
    refine List.countP_mono_left ?_
    intro r _ hr
    simp only [decide_eq_true_eq] at hr ⊢
    omega

/-- C3 witness: the bounds and antitonicity at a concrete record list,
with thresholds 1 ≤ 2. -/
theorem aggregate_bounds_and_antitone_witness :
    (aggregate [⟨"r", "ACGT", "IIII"⟩] 1).2 ≤
        (aggregate [⟨"r", "ACGT", "IIII"⟩] 1).1 ∧
      (aggregate [⟨"r", "ACGT", "IIII"⟩] 1).1 =
        [(⟨"r", "ACGT", "IIII"⟩ : SequenceRecord)].length ∧
      (aggregate [⟨"r", "ACGT", "IIII"⟩] 2).2 ≤
        (aggregate [⟨"r", "ACGT", "IIII"⟩] 1).2 :=
  aggregate_bounds_and_antitone [⟨"r", "ACGT", "IIII"⟩] 1 2 (by decide)

/-- C4: an empty match list exits immediately with the message
`No files found.` and a non-zero status, producing no output (hence no
JSON file). -/
theorem fqstat_no_files_found (num_nucleotides : Int) (quiet : Bool) :
    ∃ status : Nat, status ≠ 0 ∧
      fqstat [] num_nucleotides quiet =
        Except.error (FqError.exit "No files found." status) :=
  ⟨1, one_ne_zero, rfl⟩

/-- C5: scanning `sample.fastq` (two records, sequence lengths 25 and
35) at threshold 30 yields total_records = 2, total_targets = 1 and
percent = 0.5. -/
theorem fqstat_scenarioA :
    fqstat [sampleFastq] 30 true =
      Except.ok
        { jsonFile := "scan-30_nucleotides.json",
          jsonData := [("sample",
            { path := "sample.fastq", total_targets := 1,
              total_records := 2, percent := 1/2 })],
          table := none } := by
  rw [(by rw [Rat.mkRat_eq_divInt, Rat.divInt_eq_div]; norm_num :
    (1/2 : ℚ) = mkRat 1 2)]
  decide

/-- C10: the threshold is never validated or clamped, so with a negative
threshold every record counts as a target: total_targets equals
total_records. -/
theorem aggregate_negative_threshold_counts_all
    (records : List SequenceRecord) (num_nucleotides : Int)
    (hneg : num_nucleotides < 0) :
    (aggregate records num_nucleotides).2 =
      (aggregate records num_nucleotides).1 := by
  rw [aggregate_total_records, aggregate_total_targets]
  refine List.countP_eq_length.mpr ?_
  intro r _
  simp only [decide_eq_true_eq]
  omega

/-- C10 witness: at threshold −1 the single record counts. -/
theorem aggregate_negative_threshold_counts_all_witness :
    (aggregate [⟨"r", "ACGT", "IIII"⟩] (-1)).2 =
      (aggregate [⟨"r", "ACGT", "IIII"⟩] (-1)).1 :=
  aggregate_negative_threshold_counts_all [⟨"r", "ACGT", "IIII"⟩] (-1)
    (by decide)

/-- C6: if any matched file is structurally malformed (its record stream
fails to parse), the whole run aborts with an error: no output is
produced, so the JSON file is never written and persisted state is
unchanged — there is no partial-results mode. -/
theorem fqstat_aborts_on_malformed (matched_paths : List FastqFile)
    (num_nucleotides : Int) (quiet : Bool) (f : FastqFile)
    (hf : f ∈ matched_paths)
    (he : ∃ e, parseFastq f.lines = Except.error e) :
    ∃ err, fqstat matched_paths num_nucleotides quiet =
      Except.error err := by
  have hne : matched_paths.isEmpty = false := by
    cases matched_paths with
    | nil => exact absurd hf (List.not_mem_nil f)
    | cons a l => rfl
  obtain ⟨err, hs⟩ :=
    scanFiles_error_of_malformed num_nucleotides matched_paths [] f hf he
  exact ⟨err, by simp [fqstat, hne, hs]⟩

/-- C6 witness: a file whose third line lacks the `+` separator aborts
the run. -/
theorem fqstat_aborts_on_malformed_witness :
    ∃ err, fqstat [badFastq] 30 false = Except.error err :=
  fqstat_aborts_on_malformed [badFastq] 30 false badFastq (by decide)
    ⟨"MalformedRecordError: separator line does not start with +",
     by decide⟩

/-- C7: a successful scan writes `scan-<threshold>_nucleotides.json`;
each entry is keyed by a scanned file's stem and stores the fraction
`total_targets / total_records` rounded to 4 decimals; with `--quiet`
the same JSON persistence happens and only the table is suppressed. -/
theorem fqstat_persists_json (matched_paths : List FastqFile)
    (num_nucleotides : Int) (out : FqstatOutput)
    (h : fqstat matched_paths num_nucleotides false = Except.ok out) :
    out.jsonFile = s!"scan-{num_nucleotides}_nucleotides.json" ∧
      fqstat matched_paths num_nucleotides true =
        Except.ok { jsonFile := out.jsonFile, jsonData := out.jsonData,
                    table := none } ∧
      ∀ e ∈ out.jsonData, (∃ f ∈ matched_paths, e.1 = f.stem) ∧
        e.2.percent =
          round4 (mkRat (e.2.total_targets : Int) e.2.total_records) := by
  obtain ⟨hne, hs, hname, htab⟩ := fqstat_ok_inv _ _ _ _ h
  refine ⟨hname, ?_, ?_⟩
  · rw [hname]
    simpa using
      fqstat_of_scan_ok matched_paths num_nucleotides true out.jsonData
        hne hs
  · intro e hme
    rcases scanFiles_ok_inv num_nucleotides matched_paths [] out.jsonData
        hs e hme with hin | ⟨f, hfm, hstem, _, _, _, hpct⟩
    · exact absurd hin (List.not_mem_nil e)
    · exact ⟨⟨f, hfm, hstem⟩, hpct⟩

/-- C7 witness: the persistence properties at the concrete sample run. -/
theorem fqstat_persists_json_witness :
    sampleOutput.jsonFile = s!"scan-{(30 : Int)}_nucleotides.json" ∧
      fqstat [sampleFastq] 30 true =
        Except.ok { jsonFile := sampleOutput.jsonFile,
                    jsonData := sampleOutput.jsonData, table := none } ∧
      ∀ e ∈ sampleOutput.jsonData, (∃ f ∈ [sampleFastq], e.1 = f.stem) ∧
        e.2.percent =
          round4 (mkRat (e.2.total_targets : Int) e.2.total_records) :=
  fqstat_persists_json [sampleFastq] 30 sampleOutput (by decide)

/-- C8: in a non-quiet run the table is the rendering of the persisted
dictionary with one row per entry in insertion order; each row's Percent
cell is the entry's (rounded) fraction multiplied by 100 with a `%`
suffix, while the JSON stores that raw fraction, not multiplied by
100. -/
theorem fqstat_renders_table (matched_paths : List FastqFile)
    (num_nucleotides : Int) (out : FqstatOutput)
    (h : fqstat matched_paths num_nucleotides false = Except.ok out) :
    out.table = some (renderTable num_nucleotides out.jsonData) ∧
      (renderTable num_nucleotides out.jsonData).rows =
        out.jsonData.map renderRow ∧
      ∀ e ∈ out.jsonData,
        (renderRow e).percentValue = e.2.percent * 100 ∧
        (renderRow e).percentSuffix = "%" ∧
        e.2.percent =
          round4 (mkRat (e.2.total_targets : Int) e.2.total_records) := by
  obtain ⟨hne, hs, hname, htab⟩ := fqstat_ok_inv _ _ _ _ h
  refine ⟨by simpa using htab, rfl, ?_⟩
  intro e hme
  rcases scanFiles_ok_inv num_nucleotides matched_paths [] out.jsonData
      hs e hme with hin | ⟨f, hfm, hstem, hpath, hnz, hle, hpct⟩
  · exact absurd hin (List.not_mem_nil e)
  · exact ⟨ratTimes100_eq e.2.percent, rfl, hpct⟩

/-- C8 witness: the rendering properties at the concrete sample run. -/
theorem fqstat_renders_table_witness :
    sampleOutput.table = some (renderTable 30 sampleOutput.jsonData) ∧
      (renderTable 30 sampleOutput.jsonData).rows =
        sampleOutput.jsonData.map renderRow ∧
      ∀ e ∈ sampleOutput.jsonData,
        (renderRow e).percentValue = e.2.percent * 100 ∧
        (renderRow e).percentSuffix = "%" ∧
        e.2.percent =
          round4 (mkRat (e.2.total_targets : Int) e.2.total_records) :=
  fqstat_renders_table [sampleFastq] 30 sampleOutput (by decide)

/-- C9: when two scanned files share a filename stem, the later file's
result silently overwrites the earlier entry: the final mapping holds a
single entry for that stem carrying the second file's result, and the
run succeeds (no error, no suffixing). -/
theorem fqstat_stem_collision_last_write_wins (f1 f2 : FastqFile)
    (num_nucleotides : Int) (v1 v2 : FileResult)
    (hstem : f1.stem = f2.stem)
    (h1 : processFile num_nucleotides f1 = Except.ok (f1.stem, v1))
    (h2 : processFile num_nucleotides f2 = Except.ok (f2.stem, v2)) :
    fqstat [f1, f2] num_nucleotides true =
      Except.ok
        { jsonFile := s!"scan-{num_nucleotides}_nucleotides.json",
          jsonData := [(f2.stem, v2)], table := none } := by
  have hscan : scanFiles num_nucleotides [] [f1, f2] =
      Except.ok [(f2.stem, v2)] := by
    simp [scanFiles, h1, h2, upsert, hstem]
  simpa using fqstat_of_scan_ok [f1, f2] num_nucleotides true
    [(f2.stem, v2)] rfl hscan

/-- C9 witness: `a/s.fastq` and `b/s.fastq` both have stem `s`; the
final mapping holds only the second file's result. -/
theorem fqstat_stem_collision_last_write_wins_witness :
    fqstat [fileA, fileB] 3 true =
      Except.ok
        { jsonFile := s!"scan-{(3 : Int)}_nucleotides.json",
          jsonData := [(fileB.stem, resultB)], table := none } :=
  fqstat_stem_collision_last_write_wins fileA fileB 3 resultA resultB rfl
    (by decide) (by decide)

end Fqstat
